import Mathlib

/-!
Verification development for the prompt-enhancer two-stage pipeline
(`format_selector_agent.py` and `prompt_optimizer_agent.py`).

The external LLM collaborator is modelled as an exogenous behaviour: it
either raises an error carrying a message, or returns a raw reply text.
JSON values are modelled by an inductive type mirroring the JSON data
model (numbers as rationals); parsed documents are association lists in
insertion order, mirroring Python dicts.  The `json.loads` step applied
to the extracted brace span is modelled by an arbitrary function
`parse : String → Option Jdict` (`none` = the parser raised), quantified
universally in the theorems, so every possible parse outcome is covered.
-/

/-- A JSON value as produced by the modelled `json.loads`. -/
inductive JsonValue where
  | null
  | bool (b : Bool)
  | num (q : ℚ)
  | str (s : String)
  | arr (elems : List JsonValue)
  | obj (fields : List (String × JsonValue))

/-- A parsed JSON object / Python dict: keys with values, in order. -/
abbrev Jdict := List (String × JsonValue)

/-- Python `d[k]` / `k in d` support: first binding of key `k`. -/
def jget (d : Jdict) (k : String) : Option JsonValue :=
  (List.find? (fun p => p.1 == k) d).map (fun p => p.2)

/-- Python `k in d`. -/
def hasKey (d : Jdict) (k : String) : Bool :=
  List.any d (fun p => p.1 == k)

/-- `needle` is a prefix of `hay` (character lists). -/
def isPrefixL : List Char → List Char → Bool
  | [], _ => true
  | _ :: _, [] => false
  | a :: as, b :: bs => a == b && isPrefixL as bs

/-- Python `needle in hay` for strings, on character lists. -/
def containsSub (needle : List Char) : List Char → Bool
  | [] => isPrefixL needle []
  | h :: t => isPrefixL needle (h :: t) || containsSub needle t

/-- Python substring test `needle in hay` on strings. -/
def strContains (hay needle : String) : Bool :=
  containsSub needle.toList hay.toList

/-- Collaborator behaviour: the external call raises, or returns reply text. -/
inductive LLMResult where
  | raises (msg : String)
  | returns (text : String)

/-- Index of the first occurrence of a left brace. -/
def firstBraceIdx : List Char → Option Nat
  | [] => none
  | c :: cs =>
    if c == '{' then some 0 else (firstBraceIdx cs).map (fun i => i + 1)

/-- Index of the last occurrence of a right brace. -/
def lastCloseIdx : List Char → Option Nat
  | [] => none
  | c :: cs =>
    match lastCloseIdx cs with
    | some i => some (i + 1)
    | none => if c == '}' then some 0 else none

/-- The span matched by the Python regex `re.search(r"\x7b.*\x7d", text,
re.DOTALL)`: from the first left brace to the last right brace, newlines
included, `none` when no such span exists. -/
def braceSpan (s : String) : Option String :=
  match firstBraceIdx s.toList, lastCloseIdx s.toList with
  | some i, some j =>
    if i < j then some (String.mk ((s.toList.drop i).take (j - i + 1)))
    else none
  | some _, none => none
  | none, _ => none

/-- The five valid task types (`_is_valid_response` in the selector). -/
def valid_task_types : List String :=
  ["Reasoning/Problem Solving",
   "Coding/Programming",
   "Research/Summarization",
   "Open-Ended Chat/Conversation",
   "Multimodal Request"]

/-- The four valid formats (`_is_valid_response` in the selector). -/
def valid_formats : List String := ["JSON", "YAML", "Markdown", "Plain Text"]

/-- Python `v in listOfStrings` for a JSON value `v`: only a string can
equal a string. -/
def jvalInStrs (v : JsonValue) (ss : List String) : Bool :=
  match v with
  | .str s => ss.contains s
  | _ => false

/-- Python `isinstance(v, (int, float))` together with the numeric value:
JSON numbers are numeric, and a Python `bool` is an `int` (`True == 1`,
`False == 0`), so booleans pass the `isinstance` test too. -/
def jsonNumVal : JsonValue → Option ℚ
  | .num q => some q
  | .bool b => some (if b then 1 else 0)
  | _ => none

/-- `FormatSelectorAgent._is_valid_response`: the four required keys are
present, `task_type` and `chosen_format` lie in their enumerations, and
`confidence` is numeric and within `[0, 1]`. -/
def is_valid_response (result : Jdict) : Bool :=
  (["task_type", "chosen_format", "confidence", "original_query"].all
    (fun k => hasKey result k)) &&
  jvalInStrs ((jget result "task_type").getD .null) valid_task_types &&
  jvalInStrs ((jget result "chosen_format").getD .null) valid_formats &&
  (match jsonNumVal ((jget result "confidence").getD .null) with
   | some q => decide (0 ≤ q) && decide (q ≤ 1)
   | none => false)

/-- Coding keywords of `_apply_fallback_classification`. -/
def coding_keywords : List String :=
  ["function", "code", "script", "program", "debug", "python", "javascript",
   "java", "c++", "html", "css", "sql", "algorithm", "class", "method",
   "write code", "programming", "syntax", "api", "database", "framework"]

/-- Reasoning keywords of `_apply_fallback_classification`. -/
def reasoning_keywords : List String :=
  ["solve", "calculate", "math", "logic", "step by step", "analyze",
   "problem", "plan", "strategy", "optimize", "decision", "compare",
   "evaluate", "reasoning", "proof", "derive"]

/-- Research keywords of `_apply_fallback_classification`. -/
def research_keywords : List String :=
  ["summarize", "summary", "research", "paper", "report", "analysis",
   "review", "literature", "study", "findings", "evidence", "data",
   "conclusion", "abstract", "overview", "survey"]

/-- Multimodal keywords of `_apply_fallback_classification`. -/
def multimodal_keywords : List String :=
  ["image", "picture", "video", "audio", "generate", "create visual",
   "diagram", "chart", "graph", "illustration", "design", "photo"]

/-- The `(task_type, chosen_format, confidence)` triple chosen by the
keyword if-chain of `_apply_fallback_classification`, applied to the
lower-cased stripped query. -/
def fallback_triple (query_lower : String) : String × String × ℚ :=
  if coding_keywords.any (fun k => strContains query_lower k) then
    ("Coding/Programming", "JSON", 0.8)
  else if reasoning_keywords.any (fun k => strContains query_lower k) then
    ("Reasoning/Problem Solving", "YAML", 0.75)
  else if research_keywords.any (fun k => strContains query_lower k) then
    ("Research/Summarization", "Markdown", 0.85)
  else if multimodal_keywords.any (fun k => strContains query_lower k) then
    ("Multimodal Request", "JSON", 0.7)
  else
    ("Open-Ended Chat/Conversation", "Plain Text", 0.6)

/-- The `fallback_reason` value attached by both fallbacks of stage 1.
Python decides with `if error:`, a truthiness test, so a missing error and
an empty error string both take the else branch. -/
def selectorReason : Option String → String
  | some e =>
    if e = "" then "Rule-based classification used" else "LLM error: " ++ e
  | none => "Rule-based classification used"

/-- ASCII lower-casing of one character, as CPython `str.lower` acts on
ASCII text (all the fallback keywords are ASCII). -/
def lowerChar (c : Char) : Char :=
  if 'A' ≤ c && c ≤ 'Z' then Char.ofNat (c.toNat + 32) else c

/-- CPython `str.lower` on the modelled (ASCII) alphabet. -/
def lowerStr (s : String) : String :=
  String.mk (s.toList.map lowerChar)

/-- CPython whitespace characters stripped by `str.strip()`. -/
def isWsChar (c : Char) : Bool :=
  c == ' ' || c == '\t' || c == '\n' || c == '\r' || c == '\x0b' || c == '\x0c'

/-- Drop leading whitespace from a character list. -/
def dropWs : List Char → List Char
  | [] => []
  | c :: cs => if isWsChar c then dropWs cs else c :: cs

/-- CPython `str.strip()`: whitespace removed from both ends. -/
def stripStr (s : String) : String :=
  String.mk ((dropWs (dropWs s.toList).reverse).reverse)

/-- `user_query.lower().strip()` from `_apply_fallback_classification`. -/
def lowerStrip (s : String) : String := stripStr (lowerStr s)

/-- `FormatSelectorAgent._apply_fallback_classification`. -/
def apply_fallback_classification (user_query : String)
    (error : Option String) : Jdict :=
  let t := fallback_triple (lowerStrip user_query)
  [("task_type", .str t.1),
   ("chosen_format", .str t.2.1),
   ("confidence", .num t.2.2),
   ("original_query", .str user_query),
   ("fallback_reason", .str (selectorReason error))]

/-- `FormatSelectorAgent.select_format`.  `behavior` is the external
collaborator applied to the user query (returning the extracted reply
text, or raising); `parse` is the modelled `json.loads` applied to the
extracted brace span.  An exception from the collaborator reaches the
outer handler (fallback with the error message); a missing span, a parse
failure, or an invalid document reaches the inner handler (fallback with
no error). -/
def select_format (parse : String → Option Jdict)
    (behavior : String → LLMResult) (user_query : String) : Jdict :=
  match behavior user_query with
  | .raises msg => apply_fallback_classification user_query (some msg)
  | .returns response_text =>
    match braceSpan response_text with
    | none => apply_fallback_classification user_query none
    | some span =>
      match parse span with
      | none => apply_fallback_classification user_query none
      | some result =>
        if is_valid_response result then result
        else apply_fallback_classification user_query none

/-- The five valid model classes (`_is_valid_response` in the optimizer). -/
def valid_model_classes : List String :=
  ["Reasoning LLM",
   "Code-specialized LLM",
   "Research/long-context LLM",
   "General chat LLM",
   "Multimodal generator"]

/-- Python truthiness-and-type test of the optimizer validation:
`optimized_prompt` must be a non-empty string. -/
def isNonEmptyStr : JsonValue → Bool
  | .str s => !(s == "")
  | _ => false

/-- `PromptOptimizerAgent._is_valid_response`. -/
def opt_is_valid_response (result : Jdict) : Bool :=
  (["optimized_prompt", "model_class"].all (fun k => hasKey result k)) &&
  jvalInStrs ((jget result "model_class").getD .null) valid_model_classes &&
  isNonEmptyStr ((jget result "optimized_prompt").getD .null)

/-- CPython `str()` as used when interpolating `original_query` into the
fallback templates.  On strings it is the identity, exactly as in CPython;
booleans and null follow CPython.  A well-formed FormatDecision carries a
string here, and every theorem about the prompt text restricts to that
domain, so the renderings of numbers and composites (whose CPython repr is
not reproduced) are placeholders that no theorem depends on. -/
def pyStr : JsonValue → String
  | .str s => s
  | .bool true => "True"
  | .bool false => "False"
  | .null => "None"
  | .num q => toString q
  | .arr _ => "<list>"
  | .obj _ => "<dict>"

/-- Python `needle in task_type` for the model-class if-chain: substring
test on a string, membership on a list (a string equals only an equal
string), key membership on a dict.  On a number, boolean or null CPython
raises `TypeError`; those cases are outside the embedded domain (see
`inTaskTypeDomain`) and are given `false` here. -/
def pyInTaskType (needle : String) : JsonValue → Bool
  | .str s => strContains s needle
  | .arr xs =>
    xs.any (fun v => match v with | .str s => s == needle | _ => false)
  | .obj fs => fs.any (fun p => p.1 == needle)
  | _ => false

/-- The values of `task_type` on which CPython's `in` test is defined
(string, list, dict, or the absent-key default `""`).  On the remaining
values `_apply_fallback_optimization` would raise `TypeError`, so theorems
about the optimizer restrict to this domain. -/
def inTaskTypeDomain (format_dict : Jdict) : Bool :=
  match jget format_dict "task_type" with
  | none => true
  | some (.str _) => true
  | some (.arr _) => true
  | some (.obj _) => true
  | some _ => false

/-- The JSON fallback template (verbatim from the source f-string). -/
def jsonTemplate (original_query : String) : String :=
  "Please respond in valid JSON format. \n\nTask: " ++ original_query ++
  "\n\nRequirements:\n- Provide structured output\n- Include all relevant fields\n- Ensure JSON is properly formatted\n- Be comprehensive and accurate"

/-- The YAML fallback template (verbatim from the source f-string). -/
def yamlTemplate (original_query : String) : String :=
  "Please respond in YAML format with clear structure.\n\nTask: " ++
  original_query ++
  "\n\nRequirements:\n- Use step-by-step reasoning\n- Show your workflow clearly\n- Include intermediate steps\n- Maintain proper YAML syntax"

/-- The Markdown fallback template (verbatim from the source f-string). -/
def markdownTemplate (original_query : String) : String :=
  "Please respond in well-structured Markdown format.\n\n## Task\n" ++
  original_query ++
  "\n\n## Requirements\n- Use clear headings and sections\n- Provide comprehensive explanations\n- Include examples where relevant\n- Maintain readability"

/-- The Plain Text fallback template (verbatim from the source f-string). -/
def plainTemplate (original_query : String) : String :=
  "Task: " ++ original_query ++
  "\n\nPlease provide a clear, comprehensive response that:\n- Addresses all aspects of the question\n- Uses simple, understandable language\n- Includes relevant examples or explanations\n- Is well-organized and easy to follow"

/-- The template if-chain of `_apply_fallback_optimization`, keyed by the
raw `chosen_format` value (Python `==` between a non-string and a string
is `False`, so only the string keys select a non-default template). -/
def fallback_template (chosen_format : JsonValue)
    (original_query : String) : String :=
  match chosen_format with
  | .str s =>
    if s = "JSON" then jsonTemplate original_query
    else if s = "YAML" then yamlTemplate original_query
    else if s = "Markdown" then markdownTemplate original_query
    else plainTemplate original_query
  | _ => plainTemplate original_query

/-- The model-class if-chain of `_apply_fallback_optimization`. -/
def fallback_model_class (task_type : JsonValue) : String :=
  if pyInTaskType "Coding/Programming" task_type then "Code-specialized LLM"
  else if pyInTaskType "Reasoning/Problem Solving" task_type then
    "Reasoning LLM"
  else if pyInTaskType "Research/Summarization" task_type then
    "Research/long-context LLM"
  else if pyInTaskType "Multimodal Request" task_type then
    "Multimodal generator"
  else "General chat LLM"

/-- The `fallback_reason` value attached by both fallbacks of stage 2.
Python decides with `if error:`, a truthiness test, so a missing error and
an empty error string both take the else branch. -/
def optimizerReason : Option String → String
  | some e =>
    if e = "" then "Rule-based optimization used" else "LLM error: " ++ e
  | none => "Rule-based optimization used"

/-- `PromptOptimizerAgent._apply_fallback_optimization`. -/
def apply_fallback_optimization (format_dict : Jdict)
    (error : Option String) : Jdict :=
  let original_query := (jget format_dict "original_query").getD (.str "")
  let chosen_format :=
    (jget format_dict "chosen_format").getD (.str "Plain Text")
  let task_type := (jget format_dict "task_type").getD (.str "")
  [("optimized_prompt",
    .str (fallback_template chosen_format (pyStr original_query))),
   ("model_class", .str (fallback_model_class task_type)),
   ("fallback_reason", .str (optimizerReason error))]

/-- The compact payload `input_data` sent to the stage-2 collaborator:
the four projected fields with their defaults. -/
def optInput (format_dict : Jdict) : Jdict :=
  [("original_query", (jget format_dict "original_query").getD (.str "")),
   ("chosen_format",
    (jget format_dict "chosen_format").getD (.str "Plain Text")),
   ("task_type", (jget format_dict "task_type").getD (.str "")),
   ("confidence", (jget format_dict "confidence").getD (.num 0.5))]

/-- `PromptOptimizerAgent.optimize_prompt`.  The collaborator receives
`json.dumps(input_data)`; since `json.dumps` is a function of the payload,
the behaviour is modelled as a function of `optInput format_dict`. -/
def optimize_prompt (parse : String → Option Jdict)
    (behavior : Jdict → LLMResult) (format_dict : Jdict) : Jdict :=
  match behavior (optInput format_dict) with
  | .raises msg => apply_fallback_optimization format_dict (some msg)
  | .returns response_text =>
    match braceSpan response_text with
    | none => apply_fallback_optimization format_dict none
    | some span =>
      match parse span with
      | none => apply_fallback_optimization format_dict none
      | some result =>
        if opt_is_valid_response result then result
        else apply_fallback_optimization format_dict none

/-- The schema invariants of a FormatDecision (spec section 3): the task
type lies in the 5-category enumeration, the format in the 4-format
enumeration, and the confidence is numeric and within the closed unit
interval. -/
def decisionOk (r : Jdict) : Prop :=
  (∃ tt, jget r "task_type" = some (.str tt) ∧ tt ∈ valid_task_types) ∧
  (∃ cf, jget r "chosen_format" = some (.str cf) ∧ cf ∈ valid_formats) ∧
  (∃ v c, jget r "confidence" = some v ∧ jsonNumVal v = some c ∧
    0 ≤ c ∧ c ≤ 1)

lemma fallback_triple_cases (s : String) :
    fallback_triple s = ("Coding/Programming", "JSON", 0.8) ∨
    fallback_triple s = ("Reasoning/Problem Solving", "YAML", 0.75) ∨
    fallback_triple s = ("Research/Summarization", "Markdown", 0.85) ∨
    fallback_triple s = ("Multimodal Request", "JSON", 0.7) ∨
    fallback_triple s = ("Open-Ended Chat/Conversation", "Plain Text", 0.6) := by
  unfold fallback_triple
  split
  · exact Or.inl rfl
  split
  · exact Or.inr (Or.inl rfl)
  split
  · exact Or.inr (Or.inr (Or.inl rfl))
  split
  · exact Or.inr (Or.inr (Or.inr (Or.inl rfl)))
  · exact Or.inr (Or.inr (Or.inr (Or.inr rfl)))

lemma jget_fallback_task_type (q : String) (e : Option String) :
    jget (apply_fallback_classification q e) "task_type" =
      some (.str (fallback_triple (lowerStrip q)).1) := rfl

lemma jget_fallback_chosen_format (q : String) (e : Option String) :
    jget (apply_fallback_classification q e) "chosen_format" =
      some (.str (fallback_triple (lowerStrip q)).2.1) := rfl

lemma jget_fallback_confidence (q : String) (e : Option String) :
    jget (apply_fallback_classification q e) "confidence" =
      some (.num (fallback_triple (lowerStrip q)).2.2) := rfl

lemma jget_fallback_reason (q : String) (e : Option String) :
    jget (apply_fallback_classification q e) "fallback_reason" =
      some (.str (selectorReason e)) := rfl

lemma fallback_decisionOk (q : String) (e : Option String) :
    decisionOk (apply_fallback_classification q e) := by
  refine ⟨⟨_, jget_fallback_task_type q e, ?_⟩,
    ⟨_, jget_fallback_chosen_format q e, ?_⟩,
    ⟨_, _, jget_fallback_confidence q e, rfl, ?_, ?_⟩⟩ <;>
  rcases fallback_triple_cases (lowerStrip q) with h | h | h | h | h <;>
    rw [h] <;> first | decide | norm_num

lemma valid_decisionOk (r : Jdict) (h : is_valid_response r = true) :
    decisionOk r := by
  unfold is_valid_response at h
  simp only [Bool.and_eq_true] at h
  obtain ⟨⟨⟨-, htt⟩, hcf⟩, hconf⟩ := h
  refine ⟨?_, ?_, ?_⟩
  · cases hj : jget r "task_type" with
    | none => rw [hj] at htt; simp [jvalInStrs] at htt
    | some v =>
      rw [hj] at htt
      cases v with
      | str s =>
        refine ⟨s, rfl, ?_⟩
        simpa [jvalInStrs, List.contains_iff_exists_mem_beq] using htt
      | null => simp [jvalInStrs] at htt
      | bool b => simp [jvalInStrs] at htt
      | num q => simp [jvalInStrs] at htt
      | arr a => simp [jvalInStrs] at htt
      | obj o => simp [jvalInStrs] at htt
  · cases hj : jget r "chosen_format" with
    | none => rw [hj] at hcf; simp [jvalInStrs] at hcf
    | some v =>
      rw [hj] at hcf
      cases v with
      | str s =>
        refine ⟨s, rfl, ?_⟩
        simpa [jvalInStrs, List.contains_iff_exists_mem_beq] using hcf
      | null => simp [jvalInStrs] at hcf
      | bool b => simp [jvalInStrs] at hcf
      | num q => simp [jvalInStrs] at hcf
      | arr a => simp [jvalInStrs] at hcf
      | obj o => simp [jvalInStrs] at hcf
  · cases hj : jget r "confidence" with
    | none => rw [hj] at hconf; simp [jsonNumVal] at hconf
    | some v =>
      rw [hj] at hconf
      cases hn : jsonNumVal v with
      | none => rw [Option.getD_some, hn] at hconf; simp at hconf
      | some c =>
        rw [Option.getD_some, hn] at hconf
        simp only [Bool.and_eq_true, decide_eq_true_eq] at hconf
        exact ⟨v, c, rfl, hn, hconf.1, hconf.2⟩

lemma select_format_raises (parse : String → Option Jdict)
    (behavior : String → LLMResult) (q msg : String)
    (h : behavior q = .raises msg) :
    select_format parse behavior q =
      apply_fallback_classification q (some msg) := by
  simp only [select_format, h]

lemma select_format_no_span (parse : String → Option Jdict)
    (behavior : String → LLMResult) (q text : String)
    (h : behavior q = .returns text) (h2 : braceSpan text = none) :
    select_format parse behavior q = apply_fallback_classification q none := by
  simp only [select_format, h, h2]

lemma select_format_no_parse (parse : String → Option Jdict)
    (behavior : String → LLMResult) (q text span : String)
    (h : behavior q = .returns text) (h2 : braceSpan text = some span)
    (h3 : parse span = none) :
    select_format parse behavior q = apply_fallback_classification q none := by
  simp only [select_format, h, h2, h3]

lemma select_format_invalid (parse : String → Option Jdict)
    (behavior : String → LLMResult) (q text span : String) (r : Jdict)
    (h : behavior q = .returns text) (h2 : braceSpan text = some span)
    (h3 : parse span = some r) (h4 : is_valid_response r = false) :
    select_format parse behavior q = apply_fallback_classification q none := by
  simp only [select_format, h, h2, h3, h4, Bool.false_eq_true, if_false]

lemma select_format_valid (parse : String → Option Jdict)
    (behavior : String → LLMResult) (q text span : String) (r : Jdict)
    (h : behavior q = .returns text) (h2 : braceSpan text = some span)
    (h3 : parse span = some r) (h4 : is_valid_response r = true) :
    select_format parse behavior q = r := by
  simp only [select_format, h, h2, h3, h4, if_true]

lemma select_format_cases (parse : String → Option Jdict)
    (behavior : String → LLMResult) (q : String) :
    (∃ err, select_format parse behavior q =
      apply_fallback_classification q err) ∨
    is_valid_response (select_format parse behavior q) = true := by
  cases hb : behavior q with
  | raises msg =>
    exact Or.inl ⟨some msg, select_format_raises parse behavior q msg hb⟩
  | returns text =>
    cases hs : braceSpan text with
    | none =>
      exact Or.inl ⟨none, select_format_no_span parse behavior q text hb hs⟩
    | some span =>
      cases hp : parse span with
      | none =>
        exact Or.inl ⟨none,
          select_format_no_parse parse behavior q text span hb hs hp⟩
      | some r =>
        cases hv : is_valid_response r with
        | true =>
          rw [select_format_valid parse behavior q text span r hb hs hp hv]
          exact Or.inr hv
        | false =>
          exact Or.inl ⟨none,
            select_format_invalid parse behavior q text span r hb hs hp hv⟩

/-- C1: whatever the collaborator does (raises, returns brace-less or
unparseable text, or returns a document that is missing keys or carries
out-of-enumeration or out-of-range values), `select_format` returns a
record whose task type is one of the 5 categories, whose format is one of
the 4 formats, and whose confidence is a number in the closed interval
from 0 to 1. -/
theorem C1_schema_invariants (parse : String → Option Jdict)
    (behavior : String → LLMResult) (q : String) :
    decisionOk (select_format parse behavior q) := by
  rcases select_format_cases parse behavior q with ⟨err, h⟩ | h
  · rw [h]; exact fallback_decisionOk q err
  · exact valid_decisionOk _ h

/-- C3: the fallback classification tests the lower-cased stripped query
against the keyword sets in priority order with coding first, so any query
containing a coding keyword together with a keyword of a later set is
classified as Coding/Programming with format JSON and confidence 0.8. -/
theorem C3_coding_priority (q : String) (err : Option String)
    (h1 : ∃ k ∈ coding_keywords, strContains (lowerStrip q) k = true)
    (h2 : ∃ k, (k ∈ reasoning_keywords ∨ k ∈ research_keywords ∨
      k ∈ multimodal_keywords) ∧ strContains (lowerStrip q) k = true) :
    jget (apply_fallback_classification q err) "task_type" =
      some (.str "Coding/Programming") ∧
    jget (apply_fallback_classification q err) "chosen_format" =
      some (.str "JSON") ∧
    jget (apply_fallback_classification q err) "confidence" =
      some (.num 0.8) := by
  have hc : coding_keywords.any (fun k => strContains (lowerStrip q) k)
      = true := by
    obtain ⟨k, hk, hs⟩ := h1
    exact List.any_eq_true.mpr ⟨k, hk, hs⟩
  have ht : fallback_triple (lowerStrip q) =
      ("Coding/Programming", "JSON", 0.8) := by
    unfold fallback_triple
    rw [if_pos hc]
  refine ⟨?_, ?_, ?_⟩
  · rw [jget_fallback_task_type, ht]
  · rw [jget_fallback_chosen_format, ht]
  · rw [jget_fallback_confidence, ht]

/-- C3 witness: the query from the specification contains the coding
keyword api and the research keyword summarize, and is classified as
Coding/Programming, JSON, 0.8. -/
theorem C3_coding_priority_witness :
    jget (apply_fallback_classification "summarize this api response" none)
      "task_type" = some (.str "Coding/Programming") ∧
    jget (apply_fallback_classification "summarize this api response" none)
      "chosen_format" = some (.str "JSON") ∧
    jget (apply_fallback_classification "summarize this api response" none)
      "confidence" = some (.num 0.8) :=
  C3_coding_priority "summarize this api response" none
    ⟨"api", by decide, by decide⟩
    ⟨"summarize", Or.inr (Or.inl (by decide)), by decide⟩

/-- C5: a query whose lower-cased stripped form contains no keyword of any
of the four keyword sets is classified as Open-Ended Chat/Conversation
with format Plain Text and confidence 0.6. -/
theorem C5_default_chat (q : String) (err : Option String)
    (h : ∀ k, k ∈ coding_keywords ++ reasoning_keywords ++
      research_keywords ++ multimodal_keywords →
      strContains (lowerStrip q) k = false) :
    jget (apply_fallback_classification q err) "task_type" =
      some (.str "Open-Ended Chat/Conversation") ∧
    jget (apply_fallback_classification q err) "chosen_format" =
      some (.str "Plain Text") ∧
    jget (apply_fallback_classification q err) "confidence" =
      some (.num 0.6) := by
  have hno : ∀ (l : List String),
      (∀ k, k ∈ l → k ∈ coding_keywords ++ reasoning_keywords ++
        research_keywords ++ multimodal_keywords) →
      l.any (fun k => strContains (lowerStrip q) k) = false := by
    intro l hl
    rw [Bool.eq_false_iff]
    intro hc
    obtain ⟨k, hk, hs⟩ := List.any_eq_true.mp hc
    rw [h k (hl k hk)] at hs
    exact absurd hs (by simp)
  have h1 := hno coding_keywords (by intro k hk; simp [hk])
  have h2 := hno reasoning_keywords (by intro k hk; simp [hk])
  have h3 := hno research_keywords (by intro k hk; simp [hk])
  have h4 := hno multimodal_keywords (by intro k hk; simp [hk])
  have ht : fallback_triple (lowerStrip q) =
      ("Open-Ended Chat/Conversation", "Plain Text", 0.6) := by
    unfold fallback_triple
    rw [h1, h2, h3, h4]
    simp
  refine ⟨?_, ?_, ?_⟩
  · rw [jget_fallback_task_type, ht]
  · rw [jget_fallback_chosen_format, ht]
  · rw [jget_fallback_confidence, ht]

/-- C5 witness: the query from the specification matches no keyword set
and is classified as Open-Ended Chat/Conversation, Plain Text, 0.6. -/
theorem C5_default_chat_witness :
    jget (apply_fallback_classification "tell me a joke" none)
      "task_type" = some (.str "Open-Ended Chat/Conversation") ∧
    jget (apply_fallback_classification "tell me a joke" none)
      "chosen_format" = some (.str "Plain Text") ∧
    jget (apply_fallback_classification "tell me a joke" none)
      "confidence" = some (.num 0.6) :=
  C5_default_chat "tell me a joke" none (by decide)

/-- C9: the fallback classification is a pure deterministic function of
its arguments, so two invocations with the same query and the same error
agree, and the record carries exactly the five fixed keys with no
timestamp or identity field. -/
theorem C9_fallback_pure (q : String) (err : Option String) :
    apply_fallback_classification q err = apply_fallback_classification q err ∧
    List.map Prod.fst (apply_fallback_classification q err) =
      ["task_type", "chosen_format", "confidence", "original_query",
       "fallback_reason"] :=
  ⟨rfl, rfl⟩

/-- A schema-valid document whose original_query differs from the query
the caller supplied; used to exhibit the trust gap of the success path. -/
def echoedDoc : Jdict :=
  [("task_type", .str "Coding/Programming"),
   ("chosen_format", .str "JSON"),
   ("confidence", .num 1),
   ("original_query", .str "echoed")]

/-- The serialization of `echoedDoc`: a collaborator reply that is itself
one well-formed JSON object, so the extracted span is the whole reply and
CPython `json.loads` on it yields exactly `echoedDoc` (keys in insertion
order, the integer 1 as confidence). -/
def echoReply : String :=
  "\x7b\"task_type\": \"Coding/Programming\", \"chosen_format\": \"JSON\", \"confidence\": 1, \"original_query\": \"echoed\"\x7d"

/-- The modelled `json.loads` on the single span arising in the C4 run:
it yields `echoedDoc` on exactly that span, agreeing with CPython
`json.loads` there, and fails elsewhere. -/
def echoParse : String → Option Jdict :=
  fun s => if s = echoReply then some echoedDoc else none

/-- C4 counterexample: a collaborator reply that is a schema-valid JSON
document echoing a different original_query is returned as-is by
select_format, so the record's original_query is the echoed string, not
the caller's query. -/
theorem C4_counterexample :
    jget (select_format echoParse (fun _ => .returns echoReply)
      "real query") "original_query" ≠ some (.str "real query") := by
  intro h
  rw [show jget (select_format echoParse (fun _ => .returns echoReply)
    "real query") "original_query" = some (.str "echoed") from rfl] at h
  injection h with h1
  injection h1 with h2
  exact absurd h2 (by decide)

/-- C4 amended: the fallback record always carries the caller's query
verbatim in original_query (hence so does select_format on every fallback
path, including a raised collaborator error); on the success path the
validated document is returned as-is, original_query included, since
validation only checks that the key is present. -/
theorem C4_query_preservation :
    (∀ q e, jget (apply_fallback_classification q e) "original_query" =
      some (.str q)) ∧
    (∀ (parse : String → Option Jdict) (msg q : String),
      jget (select_format parse (fun _ => .raises msg) q) "original_query" =
        some (.str q)) :=
  ⟨fun _ _ => rfl, fun _ _ _ => rfl⟩

lemma jget_opt_fallback_prompt (d : Jdict) (e : Option String) :
    jget (apply_fallback_optimization d e) "optimized_prompt" =
      some (.str (fallback_template
        ((jget d "chosen_format").getD (.str "Plain Text"))
        (pyStr ((jget d "original_query").getD (.str ""))))) := rfl

lemma jget_opt_fallback_model_class (d : Jdict) (e : Option String) :
    jget (apply_fallback_optimization d e) "model_class" =
      some (.str (fallback_model_class
        ((jget d "task_type").getD (.str "")))) := rfl

lemma jget_opt_fallback_reason (d : Jdict) (e : Option String) :
    jget (apply_fallback_optimization d e) "fallback_reason" =
      some (.str (optimizerReason e)) := rfl

lemma optimize_prompt_raises (parse : String → Option Jdict)
    (behavior : Jdict → LLMResult) (d : Jdict) (msg : String)
    (h : behavior (optInput d) = .raises msg) :
    optimize_prompt parse behavior d =
      apply_fallback_optimization d (some msg) := by
  simp only [optimize_prompt, h]

lemma optimize_prompt_no_span (parse : String → Option Jdict)
    (behavior : Jdict → LLMResult) (d : Jdict) (text : String)
    (h : behavior (optInput d) = .returns text)
    (h2 : braceSpan text = none) :
    optimize_prompt parse behavior d = apply_fallback_optimization d none := by
  simp only [optimize_prompt, h, h2]

lemma optimize_prompt_no_parse (parse : String → Option Jdict)
    (behavior : Jdict → LLMResult) (d : Jdict) (text span : String)
    (h : behavior (optInput d) = .returns text)
    (h2 : braceSpan text = some span) (h3 : parse span = none) :
    optimize_prompt parse behavior d = apply_fallback_optimization d none := by
  simp only [optimize_prompt, h, h2, h3]

lemma optimize_prompt_invalid (parse : String → Option Jdict)
    (behavior : Jdict → LLMResult) (d : Jdict) (text span : String)
    (r : Jdict) (h : behavior (optInput d) = .returns text)
    (h2 : braceSpan text = some span) (h3 : parse span = some r)
    (h4 : opt_is_valid_response r = false) :
    optimize_prompt parse behavior d = apply_fallback_optimization d none := by
  simp only [optimize_prompt, h, h2, h3, h4, Bool.false_eq_true, if_false]

lemma optimize_prompt_valid (parse : String → Option Jdict)
    (behavior : Jdict → LLMResult) (d : Jdict) (text span : String)
    (r : Jdict) (h : behavior (optInput d) = .returns text)
    (h2 : braceSpan text = some span) (h3 : parse span = some r)
    (h4 : opt_is_valid_response r = true) :
    optimize_prompt parse behavior d = r := by
  simp only [optimize_prompt, h, h2, h3, h4, if_true]

/-- C2 counterexample: an exception whose message is the empty string is
falsy under Python's `if error:` test, so the fallback attaches the
rule-based marker, not the text LLM error: followed by the empty
message. -/
theorem C2_empty_error_counterexample :
    jget (select_format (fun _ => none) (fun _ => .raises "") "hi")
      "fallback_reason" ≠ some (.str ("LLM error: " ++ "")) := by
  intro h
  rw [show jget (select_format (fun _ => none) (fun _ => .raises "") "hi")
    "fallback_reason" = some (.str "Rule-based classification used")
    from rfl] at h
  injection h with h1
  injection h1 with h2
  exact absurd h2 (by decide)

/-- C2 amended: no failure mode escapes either stage.  A raised
collaborator error with a non-empty message m yields a fallback record
whose fallback_reason is the text LLM error: m; a raise with an empty
message is falsy under Python's `if error:` test and yields the stage's
rule-based marker, exactly as a reply without a brace span, an
unparseable span, or a schema-invalid document does.  (Both modelled
operations are total functions, and theorems about the stage-2 fallback
assume the input task_type lies in the domain where the CPython
membership test is defined.) -/
theorem C2_no_error_escape :
    (∀ (parse : String → Option Jdict) (msg q : String), msg ≠ "" →
      jget (select_format parse (fun _ => .raises msg) q) "fallback_reason" =
        some (.str ("LLM error: " ++ msg))) ∧
    (∀ (parse : String → Option Jdict) (q : String),
      jget (select_format parse (fun _ => .raises "") q) "fallback_reason" =
        some (.str "Rule-based classification used")) ∧
    (∀ (parse : String → Option Jdict) (text q : String),
      braceSpan text = none →
      jget (select_format parse (fun _ => .returns text) q)
        "fallback_reason" = some (.str "Rule-based classification used")) ∧
    (∀ (parse : String → Option Jdict) (text q span : String),
      braceSpan text = some span → parse span = none →
      jget (select_format parse (fun _ => .returns text) q)
        "fallback_reason" = some (.str "Rule-based classification used")) ∧
    (∀ (parse : String → Option Jdict) (text q span : String) (r : Jdict),
      braceSpan text = some span → parse span = some r →
      is_valid_response r = false →
      jget (select_format parse (fun _ => .returns text) q)
        "fallback_reason" = some (.str "Rule-based classification used")) ∧
    (∀ (parse : String → Option Jdict) (msg : String) (d : Jdict),
      inTaskTypeDomain d = true → msg ≠ "" →
      jget (optimize_prompt parse (fun _ => .raises msg) d)
        "fallback_reason" = some (.str ("LLM error: " ++ msg))) ∧
    (∀ (parse : String → Option Jdict) (d : Jdict),
      inTaskTypeDomain d = true →
      jget (optimize_prompt parse (fun _ => .raises "") d)
        "fallback_reason" = some (.str "Rule-based optimization used")) ∧
    (∀ (parse : String → Option Jdict) (text : String) (d : Jdict),
      inTaskTypeDomain d = true → braceSpan text = none →
      jget (optimize_prompt parse (fun _ => .returns text) d)
        "fallback_reason" = some (.str "Rule-based optimization used")) ∧
    (∀ (parse : String → Option Jdict) (text span : String) (d : Jdict),
      inTaskTypeDomain d = true → braceSpan text = some span →
      parse span = none →
      jget (optimize_prompt parse (fun _ => .returns text) d)
        "fallback_reason" = some (.str "Rule-based optimization used")) ∧
    (∀ (parse : String → Option Jdict) (text span : String) (d r : Jdict),
      inTaskTypeDomain d = true → braceSpan text = some span →
      parse span = some r → opt_is_valid_response r = false →
      jget (optimize_prompt parse (fun _ => .returns text) d)
        "fallback_reason" = some (.str "Rule-based optimization used")) := by
  refine ⟨?_, ?_, ?_, ?_, ?_, ?_, ?_, ?_, ?_, ?_⟩
  · intro parse msg q hne
    rw [select_format_raises parse _ q msg rfl, jget_fallback_reason]
    simp [selectorReason, hne]
  · intro parse q
    rw [select_format_raises parse _ q "" rfl, jget_fallback_reason]
    rfl
  · intro parse text q h
    rw [select_format_no_span parse _ q text rfl h, jget_fallback_reason]
    rfl
  · intro parse text q span h h2
    rw [select_format_no_parse parse _ q text span rfl h h2,
      jget_fallback_reason]
    rfl
  · intro parse text q span r h h2 h3
    rw [select_format_invalid parse _ q text span r rfl h h2 h3,
      jget_fallback_reason]
    rfl
  · intro parse msg d hdom hne
    rw [optimize_prompt_raises parse _ d msg rfl, jget_opt_fallback_reason]
    simp [optimizerReason, hne]
  · intro parse d hdom
    rw [optimize_prompt_raises parse _ d "" rfl, jget_opt_fallback_reason]
    rfl
  · intro parse text d hdom h
    rw [optimize_prompt_no_span parse _ d text rfl h, jget_opt_fallback_reason]
    rfl
  · intro parse text span d hdom h h2
    rw [optimize_prompt_no_parse parse _ d text span rfl h h2,
      jget_opt_fallback_reason]
    rfl
  · intro parse text span d r hdom h h2 h3
    rw [optimize_prompt_invalid parse _ d text span r rfl h h2 h3,
      jget_opt_fallback_reason]
    rfl

/-- A parse outcome that always fails, as after an unparseable span. -/
def noneParse : String → Option Jdict := fun _ => none

/-- A parse outcome yielding an empty document, which fails validation. -/
def emptyParse : String → Option Jdict := fun _ => some []

/-- C2 witness: each failure mode evaluated at a concrete input produces
the stated fallback_reason, the raise with an empty message included. -/
theorem C2_no_error_escape_witness :
    jget (select_format noneParse (fun _ => .raises "boom") "hi")
      "fallback_reason" = some (.str ("LLM error: " ++ "boom")) ∧
    jget (select_format noneParse (fun _ => .raises "") "plain")
      "fallback_reason" = some (.str "Rule-based classification used") ∧
    jget (select_format noneParse (fun _ => .returns "plain") "hi")
      "fallback_reason" = some (.str "Rule-based classification used") ∧
    jget (select_format noneParse (fun _ => .returns "\x7b\x7d") "hi")
      "fallback_reason" = some (.str "Rule-based classification used") ∧
    jget (select_format emptyParse (fun _ => .returns "\x7b\x7d") "hi")
      "fallback_reason" = some (.str "Rule-based classification used") ∧
    jget (optimize_prompt noneParse (fun _ => .raises "boom") [])
      "fallback_reason" = some (.str ("LLM error: " ++ "boom")) ∧
    jget (optimize_prompt noneParse (fun _ => .raises "") [])
      "fallback_reason" = some (.str "Rule-based optimization used") ∧
    jget (optimize_prompt noneParse (fun _ => .returns "plain") [])
      "fallback_reason" = some (.str "Rule-based optimization used") ∧
    jget (optimize_prompt noneParse (fun _ => .returns "\x7b\x7d") [])
      "fallback_reason" = some (.str "Rule-based optimization used") ∧
    jget (optimize_prompt emptyParse (fun _ => .returns "\x7b\x7d") [])
      "fallback_reason" = some (.str "Rule-based optimization used") :=
  ⟨C2_no_error_escape.1 noneParse "boom" "hi" (by decide),
   C2_no_error_escape.2.1 noneParse "plain",
   C2_no_error_escape.2.2.1 noneParse "plain" "hi" rfl,
   C2_no_error_escape.2.2.2.1 noneParse "\x7b\x7d" "hi" "\x7b\x7d" rfl rfl,
   C2_no_error_escape.2.2.2.2.1 emptyParse "\x7b\x7d" "hi" "\x7b\x7d" []
     rfl rfl rfl,
   C2_no_error_escape.2.2.2.2.2.1 noneParse "boom" [] rfl (by decide),
   C2_no_error_escape.2.2.2.2.2.2.1 noneParse [] rfl,
   C2_no_error_escape.2.2.2.2.2.2.2.1 noneParse "plain" [] rfl rfl,
   C2_no_error_escape.2.2.2.2.2.2.2.2.1 noneParse "\x7b\x7d" "\x7b\x7d" []
     rfl rfl rfl,
   C2_no_error_escape.2.2.2.2.2.2.2.2.2 emptyParse "\x7b\x7d" "\x7b\x7d"
     [] [] rfl rfl rfl rfl⟩

lemma isPrefixL_append (n r : List Char) : isPrefixL n (n ++ r) = true := by
  induction n with
  | nil => rfl
  | cons a as ih => simp [isPrefixL, ih]

lemma containsSub_of_isPrefixL (n l : List Char) (h : isPrefixL n l = true) :
    containsSub n l = true := by
  cases l with
  | nil => simpa [containsSub] using h
  | cons c cs => simp [containsSub, h]

lemma containsSub_wrap (n b : List Char) :
    ∀ a : List Char, containsSub n (a ++ (n ++ b)) = true := by
  intro a
  induction a with
  | nil => exact containsSub_of_isPrefixL n (n ++ b) (isPrefixL_append n b)
  | cons x xs ih => simp [containsSub, ih]

lemma strContains_wrap (a q b : String) :
    strContains (a ++ q ++ b) q = true := by
  unfold strContains
  have hl : (a ++ q ++ b).toList = a.toList ++ (q.toList ++ b.toList) := by
    show (a ++ q ++ b).data = a.data ++ (q.data ++ b.data)
    simp [String.data_append]
  rw [hl]
  exact containsSub_wrap q.toList b.toList a.toList

lemma fallback_template_mem (cf : JsonValue) (oq : String) :
    fallback_template cf oq = jsonTemplate oq ∨
    fallback_template cf oq = yamlTemplate oq ∨
    fallback_template cf oq = markdownTemplate oq ∨
    fallback_template cf oq = plainTemplate oq := by
  cases cf with
  | str s =>
    by_cases h1 : s = "JSON"
    · exact Or.inl (by simp [fallback_template, h1])
    by_cases h2 : s = "YAML"
    · exact Or.inr (Or.inl (by simp [fallback_template, h1, h2]))
    by_cases h3 : s = "Markdown"
    · exact Or.inr (Or.inr (Or.inl (by simp [fallback_template, h1, h2, h3])))
    · exact Or.inr (Or.inr (Or.inr (by simp [fallback_template, h1, h2, h3])))
  | null => exact Or.inr (Or.inr (Or.inr rfl))
  | bool b => exact Or.inr (Or.inr (Or.inr rfl))
  | num q => exact Or.inr (Or.inr (Or.inr rfl))
  | arr a => exact Or.inr (Or.inr (Or.inr rfl))
  | obj o => exact Or.inr (Or.inr (Or.inr rfl))

lemma template_contains (t : JsonValue) (oq : String) :
    strContains (fallback_template t oq) oq = true := by
  rcases fallback_template_mem t oq with h | h | h | h <;> rw [h] <;>
    first
    | exact strContains_wrap "Please respond in valid JSON format. \n\nTask: "
        oq "\n\nRequirements:\n- Provide structured output\n- Include all relevant fields\n- Ensure JSON is properly formatted\n- Be comprehensive and accurate"
    | exact strContains_wrap
        "Please respond in YAML format with clear structure.\n\nTask: " oq
        "\n\nRequirements:\n- Use step-by-step reasoning\n- Show your workflow clearly\n- Include intermediate steps\n- Maintain proper YAML syntax"
    | exact strContains_wrap
        "Please respond in well-structured Markdown format.\n\n## Task\n" oq
        "\n\n## Requirements\n- Use clear headings and sections\n- Provide comprehensive explanations\n- Include examples where relevant\n- Maintain readability"
    | exact strContains_wrap "Task: " oq
        "\n\nPlease provide a clear, comprehensive response that:\n- Addresses all aspects of the question\n- Uses simple, understandable language\n- Includes relevant examples or explanations\n- Is well-organized and easy to follow"

/-- C7: the stage-2 fallback selects exactly one of the four fixed
templates, keyed by chosen_format with JSON, YAML and Markdown selecting
their templates and anything else, the absent key included, selecting the
Plain Text template; the produced optimized_prompt contains the decision's
original_query as a literal substring. -/
theorem C7_fallback_template (d : Jdict) (err : Option String) (oq : String)
    (hq : (jget d "original_query").getD (.str "") = .str oq)
    (hdom : inTaskTypeDomain d = true) :
    ∃ p, jget (apply_fallback_optimization d err) "optimized_prompt" =
        some (.str p) ∧
      (p = jsonTemplate oq ∨ p = yamlTemplate oq ∨ p = markdownTemplate oq ∨
        p = plainTemplate oq) ∧
      ((jget d "chosen_format").getD (.str "Plain Text") = .str "JSON" →
        p = jsonTemplate oq) ∧
      ((jget d "chosen_format").getD (.str "Plain Text") = .str "YAML" →
        p = yamlTemplate oq) ∧
      ((jget d "chosen_format").getD (.str "Plain Text") = .str "Markdown" →
        p = markdownTemplate oq) ∧
      ((∀ s, (jget d "chosen_format").getD (.str "Plain Text") = .str s →
        s ≠ "JSON" ∧ s ≠ "YAML" ∧ s ≠ "Markdown") →
        p = plainTemplate oq) ∧
      (jget d "chosen_format" = none → p = plainTemplate oq) ∧
      strContains p oq = true := by
  refine ⟨fallback_template ((jget d "chosen_format").getD (.str "Plain Text"))
    oq, by rw [jget_opt_fallback_prompt, hq]; rfl,
    fallback_template_mem _ oq,
    ?_, ?_, ?_, ?_, ?_, template_contains _ oq⟩
  · intro h; rw [h]; rfl
  · intro h; rw [h]; rfl
  · intro h; rw [h]; rfl
  · intro h
    cases hcf : (jget d "chosen_format").getD (.str "Plain Text") with
    | str s =>
      obtain ⟨n1, n2, n3⟩ := h s hcf
      simp [fallback_template, n1, n2, n3]
    | null => rfl
    | bool b => rfl
    | num q => rfl
    | arr a => rfl
    | obj o => rfl
  · intro hn
    rw [hn]
    rfl

/-- C6: in the stage-2 fallback, model_class is a function of task_type
alone, chosen by substring containment against the four non-default
category names in priority order with General chat LLM as the default; in
particular task_type Research/Summarization yields model_class
Research/long-context LLM for every confidence value. -/
theorem C6_model_class_function :
    (∀ (d1 d2 : Jdict) (e1 e2 : Option String),
      inTaskTypeDomain d1 = true →
      (jget d1 "task_type").getD (.str "") =
        (jget d2 "task_type").getD (.str "") →
      jget (apply_fallback_optimization d1 e1) "model_class" =
        jget (apply_fallback_optimization d2 e2) "model_class") ∧
    (∀ (d : Jdict) (err : Option String),
      jget d "task_type" = some (.str "Research/Summarization") →
      jget (apply_fallback_optimization d err) "model_class" =
        some (.str "Research/long-context LLM")) ∧
    (∀ (d : Jdict) (err : Option String),
      (∀ c, c ∈ ["Coding/Programming", "Reasoning/Problem Solving",
        "Research/Summarization", "Multimodal Request"] →
        pyInTaskType c ((jget d "task_type").getD (.str "")) = false) →
      jget (apply_fallback_optimization d err) "model_class" =
        some (.str "General chat LLM")) := by
  refine ⟨?_, ?_, ?_⟩
  · intro d1 d2 e1 e2 hdom h
    rw [jget_opt_fallback_model_class, jget_opt_fallback_model_class, h]
  · intro d err h
    rw [jget_opt_fallback_model_class, h]
    rfl
  · intro d err h
    rw [jget_opt_fallback_model_class]
    have h1 := h "Coding/Programming" (by simp)
    have h2 := h "Reasoning/Problem Solving" (by simp)
    have h3 := h "Research/Summarization" (by simp)
    have h4 := h "Multimodal Request" (by simp)
    unfold fallback_model_class
    rw [h1, h2, h3, h4]
    simp

/-- C6 witness: concrete decisions discharging each hypothesis; the
Research/Summarization decision also carries a confidence value. -/
theorem C6_model_class_function_witness :
    jget (apply_fallback_optimization [("task_type", .str "Coding/Programming")]
      none) "model_class" =
      jget (apply_fallback_optimization
        [("task_type", .str "Coding/Programming"), ("confidence", .num 0.9)]
        (some "x")) "model_class" ∧
    jget (apply_fallback_optimization
      [("task_type", .str "Research/Summarization"), ("confidence", .num 0.1)]
      none) "model_class" = some (.str "Research/long-context LLM") ∧
    jget (apply_fallback_optimization [] none) "model_class" =
      some (.str "General chat LLM") :=
  ⟨C6_model_class_function.1 [("task_type", .str "Coding/Programming")]
      [("task_type", .str "Coding/Programming"), ("confidence", .num 0.9)]
      none (some "x") rfl rfl,
   C6_model_class_function.2.1
      [("task_type", .str "Research/Summarization"), ("confidence", .num 0.1)]
      none rfl,
   C6_model_class_function.2.2 [] none (by decide)⟩

/-- C7 witness: a decision with extra fields, a Markdown format and a
concrete query selects the Markdown template, which contains the query. -/
theorem C7_fallback_template_witness :
    ∃ p, jget (apply_fallback_optimization
        [("original_query", .str "explain monads"),
         ("chosen_format", .str "Markdown"),
         ("task_type", .str "Research/Summarization")] none)
        "optimized_prompt" = some (.str p) ∧
      (p = jsonTemplate "explain monads" ∨ p = yamlTemplate "explain monads" ∨
        p = markdownTemplate "explain monads" ∨
        p = plainTemplate "explain monads") ∧
      strContains p "explain monads" = true := by
  obtain ⟨p, h1, h2, -, -, -, -, -, h8⟩ :=
    C7_fallback_template
      [("original_query", .str "explain monads"),
       ("chosen_format", .str "Markdown"),
       ("task_type", .str "Research/Summarization")] none "explain monads"
      rfl rfl
  exact ⟨p, h1, h2, h8⟩

/-- C10: optimize_prompt reads only the four projected fields of its input
decision; two decisions agreeing on original_query, chosen_format,
task_type and confidence (absent fields resolved by the defaults) receive
identical results under the same parse outcome and the same collaborator
behaviour. -/
theorem C10_optimizer_projection (parse : String → Option Jdict)
    (behavior : Jdict → LLMResult) (d1 d2 : Jdict)
    (hdom : inTaskTypeDomain d1 = true)
    (h : optInput d1 = optInput d2) :
    optimize_prompt parse behavior d1 = optimize_prompt parse behavior d2 := by
  have hcopy := h
  unfold optInput at hcopy
  simp only [List.cons.injEq, Prod.mk.injEq, true_and, and_true] at hcopy
  obtain ⟨h1, h2, h3, h4⟩ := hcopy
  have hfb : ∀ e, apply_fallback_optimization d1 e =
      apply_fallback_optimization d2 e := by
    intro e
    unfold apply_fallback_optimization
    rw [h1, h2, h3]
  cases hb : behavior (optInput d1) with
  | raises msg =>
    rw [optimize_prompt_raises parse behavior d1 msg hb,
      optimize_prompt_raises parse behavior d2 msg (h ▸ hb), hfb]
  | returns text =>
    cases hs : braceSpan text with
    | none =>
      rw [optimize_prompt_no_span parse behavior d1 text hb hs,
        optimize_prompt_no_span parse behavior d2 text (h ▸ hb) hs, hfb]
    | some span =>
      cases hp : parse span with
      | none =>
        rw [optimize_prompt_no_parse parse behavior d1 text span hb hs hp,
          optimize_prompt_no_parse parse behavior d2 text span (h ▸ hb) hs hp,
          hfb]
      | some r =>
        cases hv : opt_is_valid_response r with
        | true =>
          rw [optimize_prompt_valid parse behavior d1 text span r hb hs hp hv,
            optimize_prompt_valid parse behavior d2 text span r (h ▸ hb) hs
              hp hv]
        | false =>
          rw [optimize_prompt_invalid parse behavior d1 text span r hb hs hp
              hv,
            optimize_prompt_invalid parse behavior d2 text span r (h ▸ hb) hs
              hp hv, hfb]

/-- C10 witness: two decisions with the same original_query but different
extra fields (one carries a fallback_reason, the other an unrelated key)
receive identical optimizer results. -/
theorem C10_optimizer_projection_witness :
    optimize_prompt noneParse (fun _ => .raises "e")
      [("fallback_reason", .str "Rule-based classification used"),
       ("original_query", .str "hi")] =
    optimize_prompt noneParse (fun _ => .raises "e")
      [("original_query", .str "hi"), ("extra", .num 1)] :=
  C10_optimizer_projection noneParse (fun _ => .raises "e")
    [("fallback_reason", .str "Rule-based classification used"),
     ("original_query", .str "hi")]
    [("original_query", .str "hi"), ("extra", .num 1)] rfl rfl

lemma firstBraceIdx_none (cs : List Char) (h : firstBraceIdx cs = none) :
    ∀ k, cs.get? k ≠ some '{' := by
  induction cs with
  | nil => intro k; simp
  | cons c cs ih =>
    unfold firstBraceIdx at h
    by_cases hc : (c == '{') = true
    · rw [if_pos hc] at h; exact absurd h (by simp)
    · rw [if_neg hc] at h
      cases hf : firstBraceIdx cs with
      | some j => rw [hf] at h; exact absurd h (by simp)
      | none =>
        intro k
        cases k with
        | zero =>
          simp only [List.get?_cons_zero]
          intro he
          injection he with he2
          exact hc (beq_iff_eq.mpr he2)
        | succ k =>
          simp only [List.get?_cons_succ]
          exact ih hf k

lemma firstBraceIdx_some (cs : List Char) (i : Nat)
    (h : firstBraceIdx cs = some i) :
    cs.get? i = some '{' ∧ ∀ k, k < i → cs.get? k ≠ some '{' := by
  induction cs generalizing i with
  | nil => simp [firstBraceIdx] at h
  | cons c cs ih =>
    unfold firstBraceIdx at h
    by_cases hc : (c == '{') = true
    · rw [if_pos hc] at h
      injection h with h
      subst h
      refine ⟨?_, ?_⟩
      · simp only [List.get?_cons_zero, Option.some.injEq]
        exact beq_iff_eq.mp hc
      · intro k hk
        exact absurd hk (Nat.not_lt_zero k)
    · rw [if_neg hc] at h
      cases hf : firstBraceIdx cs with
      | none => rw [hf] at h; exact absurd h (by simp)
      | some j =>
        rw [hf] at h
        simp only [Option.map_some'] at h
        injection h with h
        subst h
        obtain ⟨g1, g2⟩ := ih j hf
        refine ⟨by simpa using g1, ?_⟩
        intro k hk
        cases k with
        | zero =>
          simp only [List.get?_cons_zero]
          intro he
          injection he with he2
          exact hc (beq_iff_eq.mpr he2)
        | succ k =>
          simp only [List.get?_cons_succ]
          exact g2 k (by omega)

lemma lastCloseIdx_none (cs : List Char) (h : lastCloseIdx cs = none) :
    ∀ k, cs.get? k ≠ some '}' := by
  induction cs with
  | nil => intro k; simp
  | cons c cs ih =>
    unfold lastCloseIdx at h
    cases hf : lastCloseIdx cs with
    | some j => rw [hf] at h; exact absurd h (by simp)
    | none =>
      rw [hf] at h
      by_cases hc : (c == '}') = true
      · rw [if_pos hc] at h; exact absurd h (by simp)
      · rw [if_neg hc] at h
        intro k
        cases k with
        | zero =>
          simp only [List.get?_cons_zero]
          intro he
          injection he with he2
          exact hc (beq_iff_eq.mpr he2)
        | succ k =>
          simp only [List.get?_cons_succ]
          exact ih hf k

lemma lastCloseIdx_some (cs : List Char) (j : Nat)
    (h : lastCloseIdx cs = some j) :
    cs.get? j = some '}' ∧ ∀ k, j < k → cs.get? k ≠ some '}' := by
  induction cs generalizing j with
  | nil => simp [lastCloseIdx] at h
  | cons c cs ih =>
    unfold lastCloseIdx at h
    cases hf : lastCloseIdx cs with
    | some i =>
      rw [hf] at h
      injection h with h
      subst h
      obtain ⟨g1, g2⟩ := ih i hf
      refine ⟨by simpa using g1, ?_⟩
      intro k hk
      cases k with
      | zero => exact absurd hk (Nat.not_lt_zero _)
      | succ k =>
        simp only [List.get?_cons_succ]
        exact g2 k (by omega)
    | none =>
      rw [hf] at h
      by_cases hc : (c == '}') = true
      · rw [if_pos hc] at h
        injection h with h
        subst h
        refine ⟨?_, ?_⟩
        · simp only [List.get?_cons_zero, Option.some.injEq]
          exact beq_iff_eq.mp hc
        · intro k hk
          cases k with
          | zero => exact absurd hk (Nat.lt_irrefl 0)
          | succ k =>
            simp only [List.get?_cons_succ]
            exact lastCloseIdx_none cs hf k
      · rw [if_neg hc] at h; exact absurd h (by simp)

/-- C8: the span handed to the parser runs from the first left brace of
the reply to its last right brace, newlines included and with no
balanced-brace awareness; when no such span exists, both stages invoke
their fallback instead of parsing, independently of the parse function. -/
theorem C8_span_extraction (text : String) :
    (∀ out, braceSpan text = some out →
      ∃ i j, i < j ∧ text.toList.get? i = some '{' ∧
        (∀ k, k < i → text.toList.get? k ≠ some '{') ∧
        text.toList.get? j = some '}' ∧
        (∀ k, j < k → text.toList.get? k ≠ some '}') ∧
        out.toList = (text.toList.drop i).take (j - i + 1)) ∧
    (braceSpan text = none →
      (¬ ∃ i j, i < j ∧ text.toList.get? i = some '{' ∧
        text.toList.get? j = some '}') ∧
      (∀ (parse : String → Option Jdict) (q : String),
        select_format parse (fun _ => .returns text) q =
          apply_fallback_classification q none) ∧
      (∀ (parse : String → Option Jdict) (d : Jdict),
        optimize_prompt parse (fun _ => .returns text) d =
          apply_fallback_optimization d none)) := by
  constructor
  · intro out hout
    unfold braceSpan at hout
    cases hf : firstBraceIdx text.toList with
    | none => rw [hf] at hout; exact absurd hout (by simp)
    | some i =>
      cases hl : lastCloseIdx text.toList with
      | none =>
        simp only [hf, hl] at hout
        exact absurd hout (by simp)
      | some j =>
        simp only [hf, hl] at hout
        by_cases hij : i < j
        · rw [if_pos hij] at hout
          injection hout with hout
          obtain ⟨g1, g2⟩ := firstBraceIdx_some _ i hf
          obtain ⟨g3, g4⟩ := lastCloseIdx_some _ j hl
          exact ⟨i, j, hij, g1, g2, g3, g4, by rw [← hout]; rfl⟩
        · rw [if_neg hij] at hout
          exact absurd hout (by simp)
  · intro hnone
    refine ⟨?_, ?_, ?_⟩
    · rintro ⟨i, j, hij, hi, hj⟩
      unfold braceSpan at hnone
      cases hf : firstBraceIdx text.toList with
      | none => exact firstBraceIdx_none _ hf i hi
      | some i0 =>
        cases hl : lastCloseIdx text.toList with
        | none => exact lastCloseIdx_none _ hl j hj
        | some j0 =>
          simp only [hf, hl] at hnone
          by_cases hij0 : i0 < j0
          · rw [if_pos hij0] at hnone
            exact absurd hnone (by simp)
          · obtain ⟨g1, g2⟩ := firstBraceIdx_some _ i0 hf
            obtain ⟨g3, g4⟩ := lastCloseIdx_some _ j0 hl
            have hi0 : i0 ≤ i := by
              by_contra hlt
              exact g2 i (by omega) hi
            have hj0 : j ≤ j0 := by
              by_contra hlt
              exact g4 j (by omega) hj
            omega
    · intro parse q
      exact select_format_no_span parse _ q text rfl hnone
    · intro parse d
      exact optimize_prompt_no_span parse _ d text rfl hnone

/-- C8 witness: a reply with prose around a span yields the first-brace to
last-brace substring, and a braceless reply routes both stages to their
fallbacks. -/
theorem C8_span_extraction_witness :
    (∃ i j, i < j ∧ ("x\x7by\x7dz").toList.get? i = some '{' ∧
      (∀ k, k < i → ("x\x7by\x7dz").toList.get? k ≠ some '{') ∧
      ("x\x7by\x7dz").toList.get? j = some '}' ∧
      (∀ k, j < k → ("x\x7by\x7dz").toList.get? k ≠ some '}') ∧
      ("\x7by\x7d").toList =
        (("x\x7by\x7dz").toList.drop i).take (j - i + 1)) ∧
    select_format noneParse (fun _ => .returns "plain") "q" =
      apply_fallback_classification "q" none ∧
    optimize_prompt noneParse (fun _ => .returns "plain") [] =
      apply_fallback_optimization [] none :=
  ⟨(C8_span_extraction "x\x7by\x7dz").1 "\x7by\x7d" rfl,
   ((C8_span_extraction "plain").2 rfl).2.1 noneParse "q",
   ((C8_span_extraction "plain").2 rfl).2.2 noneParse []⟩
